import Mathlib

/-!
Shallow embedding of the AI-Powered-Smart-Recruiter sources
(`src/main.py`, single-resume variant, and `src/try.py`, multi-resume
variant) together with proofs about the claims of the specification.

The presentation layer (tkinter widgets, dialogs, colors) is out of the
embedding's scope, matching the spec's own scoping.  The remote language
model, the embedding backend and the system clock are external services:
they are passed in as explicit function parameters, so every repository
operation becomes a pure function of its session state plus those oracles.
-/

namespace SmartRecruiter

/-! ## Python string primitives used by the sources -/

/-- The whitespace characters removed by Python's `str.strip()`
(ASCII subset, which covers every input appearing in the development). -/
def pyWhitespace (c : Char) : Bool :=
  c == ' ' || c == '\t' || c == '\n' || c == '\r' || c == '\x0b' || c == '\x0c'

/-- `str.strip()` on the character list: drop trailing then leading
whitespace (the order is immaterial; both ends are trimmed). -/
def pyStripList (l : List Char) : List Char :=
  (l.rdropWhile pyWhitespace).dropWhile pyWhitespace

/-- Python `str.strip()`. -/
def pyStrip (s : String) : String :=
  String.mk (pyStripList s.toList)

/-- Trailing-whitespace-only trim (`str.rstrip()`); used to state the
spec's words "trailing whitespace of the final result is trimmed". -/
def pyRStripOnly (s : String) : String :=
  String.mk (s.toList.rdropWhile pyWhitespace)

/-!
The cleanup regex `re.sub(r"\\(.?)\\*", r"\1", text)` of
`analyze_candidate_fit`, `generate_interview_questions` and
`generate_dynamic_interview_suggestion`: the pattern is a literal
backslash, an optional captured character (`.` never matches a newline),
then zero or more further literal backslashes (the `*` quantifies the
escaped backslash `\\`); each match is replaced by the captured character.
`stripBSGo` is that left-to-right scan; the `Bool` flag records whether
the scan is currently consuming the trailing backslash run of a match.
-/

def stripBSGo : Bool → List Char → List Char
  | _, [] => []
  | true, e :: rest =>
    if e = '\\' then stripBSGo true rest else e :: stripBSGo false rest
  | false, c :: rest =>
    if c = '\\' then
      match rest with
      | [] => []
      | d :: rest2 =>
        if d = '\n' then d :: stripBSGo false rest2
        else d :: stripBSGo true rest2
    else c :: stripBSGo false rest

/-- The full substitution `re.sub(r"\\(.?)\\*", r"\1", text)`. -/
def stripBackslashes (l : List Char) : List Char :=
  stripBSGo false l

/-- The post-processing applied to every model response in the sources:
`re.sub(r"\\(.?)\\*", r"\1", response.content).strip()`. -/
def cleanResponse (s : String) : String :=
  pyStrip (String.mk (stripBackslashes s.toList))

/-! ## Clock model -/

/-- Modelled from the spec: a two-digit zero-padded decimal field as
produced by `strftime` (`%H`, `%M`, `%S`); faithful for values below 100,
which covers every valid clock field. -/
def pad2 (n : Nat) : String :=
  String.mk [Char.ofNat (48 + n / 10 % 10), Char.ofNat (48 + n % 10)]

/-- Modelled from the spec: `datetime.datetime.now().strftime("%H:%M:%S")`
applied to a clock reading `h:m:s`. -/
def formatTime (h m s : Nat) : String :=
  pad2 h ++ ":" ++ pad2 m ++ ":" ++ pad2 s

/-- A well-formed `"HH:MM:SS"` string: eight characters, digits in the
field positions and colons between the fields. -/
def isWellFormedTimestamp (t : String) : Bool :=
  match t.toList with
  | [h1, h2, c1, m1, m2, c2, s1, s2] =>
    h1.isDigit && h2.isDigit && c1 == ':' && m1.isDigit && m2.isDigit &&
      c2 == ':' && s1.isDigit && s2.isDigit
  | _ => false

/-! ## Match scorer (`calculate_match_score`, identical in both files)

The sentence-transformer backend is external: it is modelled, per the
spec, by an `embed` oracle producing a vector of rationals for a text and
a `nrm` oracle giving a vector's norm; `pytorch_cos_sim` is the dot
product divided by the product of the two norms. -/

def dotProduct (v w : List ℚ) : ℚ :=
  (List.zipWith (fun a b => a * b) v w).sum

/-- Modelled from the spec: `util.pytorch_cos_sim`, the cosine of the
angle between two embedding vectors (dot product over product of norms);
the norm function of the backend is abstracted as `nrm`. -/
def cosSim (nrm : List ℚ → ℚ) (v w : List ℚ) : ℚ :=
  dotProduct v w / (nrm v * nrm w)

/-- `calculate_match_score(jd, resume)`: encode both texts with the same
embedding model and scale the cosine similarity by 10. -/
def calculate_match_score (nrm : List ℚ → ℚ) (embed : String → List ℚ)
    (jd resume : String) : ℚ :=
  cosSim nrm (embed jd) (embed resume) * 10

/-! ## Document loader -/

/-- The page texts of a PDF as returned by `pdfplumber`'s
`page.extract_text()`: `none` models a page with no text layer. -/
abbrev PdfPages := List (Option String)

/-- The accumulation loop of `extract_text_from_pdf`: for each page, if
`page_text := page.extract_text()` is truthy (neither `None` nor empty),
append it followed by a newline. -/
def pagesText : PdfPages → String
  | [] => ""
  | p :: rest =>
    match p with
    | some page_text =>
      if page_text = "" then pagesText rest
      else page_text ++ "\n" ++ pagesText rest
    | none => pagesText rest

/-- `extract_text_from_pdf(pdf_path)` as a function of the per-page
extraction results: the accumulated text, then `.strip()`. -/
def extract_text_from_pdf (pages : PdfPages) : String :=
  pyStrip (pagesText pages)

/-- The pages that contribute text (truthy extraction results), in order. -/
def extractablePages (pages : PdfPages) : List String :=
  pages.filterMap fun p =>
    match p with
    | some t => if t = "" then none else some t
    | none => none

/-- The page texts joined with a single newline between consecutive pages
(the spec's "concatenated in page order separated by single newlines"). -/
def joinPages : List String → String
  | [] => ""
  | [p] => p
  | p :: q :: rest => p ++ "\n" ++ joinPages (q :: rest)

/-- Modelled from the spec: the loader result as the spec words it —
extractable pages joined by single newlines with (only) trailing
whitespace trimmed. -/
def loaderSpecResult (pages : PdfPages) : String :=
  pyRStripOnly (joinPages (extractablePages pages))

/-- Python `file_path.endswith('.pdf')`, as a suffix test on the
character list. -/
def hasPdfSuffix (path : String) : Bool :=
  ".pdf".toList.isSuffixOf path.toList

/-- The file-loading branch shared by `load_job_description` and
`load_candidate_resume`: PDF paths go through `extract_text_from_pdf`,
anything else is read as UTF-8 text (`contents` is the decoded file). -/
def load_document (path : String) (pages : PdfPages) (contents : String) :
    String :=
  if hasPdfSuffix path then extract_text_from_pdf pages else contents

/-! ## Session state -/

/-- One chat record as stored in `conversation_messages`. -/
structure Message where
  sender : String
  message : String
  timestamp : String
deriving DecidableEq, Repr

/-- The global session state of `src/main.py`. -/
structure MainState where
  conversation_messages : List Message
  job_description : String
  candidate_resume : String
  current_sender : String
deriving DecidableEq, Repr

/-- The global session state of `src/try.py` (multi-resume variant). -/
structure TryState where
  conversation_messages : List Message
  job_description : String
  candidate_resumes : List String
  interview_suggestions : List String
  current_sender : String
deriving DecidableEq, Repr

/-- `"\n".join(f"{msg['sender']}: {msg['message']}" for ...)`. -/
def transcriptText (msgs : List Message) : String :=
  String.intercalate "\n" (msgs.map fun msg => msg.sender ++ ": " ++ msg.message)

/-- Python's `l[-n:]` for positive `n`: the at-most-`n` last elements. -/
def lastN (n : Nat) (l : List Message) : List Message :=
  l.drop (l.length - n)

/-- Python `analysis.replace('*', '')`: every asterisk removed. -/
def removeAsterisks (s : String) : String :=
  String.mk (s.toList.filter fun c => c ≠ '*')

/-- Python `clean_analysis.split('\n\n')`: left-to-right split of the
character stream on non-overlapping blank-line (`"\n\n"`) separators;
`acc` holds the current piece reversed. -/
def splitOnBlank : List Char → List Char → List String
  | acc, [] => [String.mk acc.reverse]
  | acc, '\n' :: '\n' :: rest => String.mk acc.reverse :: splitOnBlank [] rest
  | acc, c :: rest => splitOnBlank (c :: acc) rest

/-! ## src/main.py operations -/

namespace Main

/-- The fit-analysis prompt of `main.py`'s `analyze_candidate_fit`
(the f-string of lines 47-66, indentation included). -/
def fit_prompt (st : MainState) : String :=
  "\n    Based on the following information, provide a detailed analysis of whether this candidate should be advanced to the next interview stage:\n\n    JOB DESCRIPTION:\n    "
    ++ st.job_description
    ++ "\n\n    CANDIDATE RESUME:\n    "
    ++ st.candidate_resume
    ++ "\n\n    CONVERSATION TRANSCRIPT:\n    "
    ++ transcriptText st.conversation_messages
    ++ "\n\n    Please analyze and provide:\n    1. Key Insights from Conversation (technical skills, communication, cultural fit, red flags)\n    2. Resume vs. Conversation Consistency\n    3. Job Fit Analysis\n    4. FINAL RECOMMENDATION: PROCEED TO INTERVIEW / DECLINE / ADDITIONAL SCREENING\n    5. Confidence Level: [High/Medium/Low]\n    6. Justification for recommendation\n    "

/-- `analyze_candidate_fit`: invoke the remote model on the fit prompt and
clean its response (`llm` is the external model oracle). -/
def analyze_candidate_fit (llm : String → String) (st : MainState) : String :=
  cleanResponse (llm (fit_prompt st))

/-- `ChatApp.analyze_conversation`: the validation gate in front of the
remote model.  The second component lists the prompts sent to the remote
model during the operation (empty on rejection); message boxes and the
status label are presentation-only and omitted.  The session state is
returned unchanged in every branch, as in the source. -/
def analyze_conversation (st : MainState) : MainState × List String :=
  if st.job_description = "" ∨ st.candidate_resume = "" then (st, [])
  else if st.conversation_messages.length < 3 then (st, [])
  else (st, [fit_prompt st])

/-- `ChatApp.send_message`: strip the input text, drop it if the result
is empty, otherwise append a timestamped record and flip the sender.
The clock reading `h:m:s` stands for `datetime.now()`. -/
def send_message (input : String) (h m s : Nat) (st : MainState) : MainState :=
  let message := pyStrip input
  if message = "" then st
  else
    { st with
      conversation_messages := st.conversation_messages ++
        [{ sender := st.current_sender, message := message,
           timestamp := formatTime h m s }],
      current_sender :=
        if st.current_sender = "Recruiter" then "Candidate" else "Recruiter" }

/-- `ChatApp.clear_chat`: on confirmation, reset the conversation and the
sender; the job description and resume are untouched. -/
def clear_chat (confirm : Bool) (st : MainState) : MainState :=
  if confirm then
    { st with conversation_messages := [], current_sender := "Recruiter" }
  else st

/-- The metadata header written by `ChatApp.save_analysis` (the f-string
of lines 299-307).  `date` stands for the formatted `datetime.now()` and
`score` for the `:.1f`-formatted match score, both produced externally. -/
def report_metadata (date : String) (msgCount : Nat) (score : String) : String :=
  "\nCANDIDATE EVALUATION REPORT\nDate: " ++ date
    ++ "\nMessages analyzed: " ++ toString msgCount
    ++ "\nInitial resume match score: " ++ score
    ++ "/10\n\n--- ANALYSIS RESULTS ---\n\n"

/-- `ChatApp.save_analysis`: the full text written to the chosen file,
`metadata + analysis`. -/
def save_analysis (st : MainState) (date score analysis : String) : String :=
  report_metadata date st.conversation_messages.length score ++ analysis

end Main

/-! ## src/try.py operations -/

namespace Try

/-- The dynamic-suggestion prompt of `generate_dynamic_interview_suggestion`
(the f-string of lines 58-70). -/
def suggestion_prompt (jd recent : String) : String :=
  "\n    Based on the job description for a Data Analyst role and the recent conversation, \n    generate a targeted follow-up interview question or discussion point.\n\n    Job Description Context:\n    "
    ++ jd
    ++ "\n\n    Recent Conversation:\n    "
    ++ recent
    ++ "\n\n    Provide:\n    A question that is better to be asked for the role , no justification needed\n    "

/-- `generate_dynamic_interview_suggestion`: no-op (`None`) when the
conversation has fewer than 2 messages or either document set is missing;
otherwise prompt the model with the last three messages.  `llm` returns
`none` when the remote call raises, which the `try/except` turns into
`None`. -/
def generate_dynamic_interview_suggestion (llm : String → Option String)
    (st : TryState) : Option String :=
  if st.conversation_messages.length < 2 ∨ st.job_description = "" ∨
      st.candidate_resumes = [] then none
  else
    let recent_messages := transcriptText (lastN 3 st.conversation_messages)
    match llm (suggestion_prompt st.job_description recent_messages) with
    | some resp => some (cleanResponse resp)
    | none => none

/-- The question-generation prompt of `generate_interview_questions`
(the f-string of lines 83-95). -/
def questions_prompt (jd resume : String) : String :=
  "\n    Generate a list of 5-7 targeted interview questions based on the following:\n\n    JOB DESCRIPTION:\n    "
    ++ jd
    ++ "\n\n    CANDIDATE RESUME:\n    "
    ++ resume
    ++ "\n\n    For each question, provide:\n    1. A specific question targeting the candidate's skills or experience\n    Format the output as a numbered list,just the questions enough no justification needed.\n    "

/-- The fit-analysis prompt of `try.py`'s `analyze_candidate_fit`
(the f-string of lines 108-127; resumes joined by `\n\n---\n\n`). -/
def fit_prompt (st : TryState) : String :=
  "\n    Based on the following information, provide a detailed analysis of whether this candidate should be advanced to the next interview stage:\n\n    JOB DESCRIPTION:\n    "
    ++ st.job_description
    ++ "\n\n    CANDIDATE RESUME(S):\n    "
    ++ String.intercalate "\n\n---\n\n" st.candidate_resumes
    ++ "\n\n    CONVERSATION TRANSCRIPT:\n    "
    ++ transcriptText st.conversation_messages
    ++ "\n\n    Please analyze and provide:\n    1. Key Insights from Conversation (technical skills, communication)\n    2. Job Fit Analysis\n    3. FINAL RECOMMENDATION: PROCEED TO INTERVIEW / DECLINE / ADDITIONAL SCREENING\n    4. Justification for recommendation\n\n    Provide a short,structured, clear, and professional analysis.\n    "

/-- `ChatApp.analyze_conversation` of `try.py`: the same validation gate;
on success both the fit-analysis and the question-generation prompts are
sent to the remote model (second component, empty on rejection). -/
def analyze_conversation (st : TryState) : TryState × List String :=
  if st.job_description = "" ∨ st.candidate_resumes = [] then (st, [])
  else if st.conversation_messages.length < 3 then (st, [])
  else
    (st, [fit_prompt st,
          questions_prompt st.job_description
            (String.intercalate "\n\n" st.candidate_resumes)])

/-- `ChatApp.send_message` of `try.py`: as in `main.py`, and additionally,
once more than three messages are stored, ask for a dynamic suggestion;
a truthy suggestion is accumulated in `interview_suggestions`. -/
def send_message (llm : String → Option String) (input : String)
    (h m s : Nat) (st : TryState) : TryState :=
  let message := pyStrip input
  if message = "" then st
  else
    let st1 := { st with
      conversation_messages := st.conversation_messages ++
        [{ sender := st.current_sender, message := message,
           timestamp := formatTime h m s }] }
    let st2 :=
      if st1.conversation_messages.length > 3 then
        match generate_dynamic_interview_suggestion llm st1 with
        | some sug =>
          if sug = "" then st1
          else { st1 with interview_suggestions :=
                   st1.interview_suggestions ++ [sug] }
        | none => st1
      else st1
    { st2 with current_sender :=
        if st.current_sender = "Recruiter" then "Candidate" else "Recruiter" }

/-- `ChatApp.clear_chat` of `try.py`: on confirmation, reset conversation,
resumes, suggestions and sender; the job description is untouched. -/
def clear_chat (confirm : Bool) (st : TryState) : TryState :=
  if confirm then
    { st with
      conversation_messages := []
      candidate_resumes := []
      interview_suggestions := []
      current_sender := "Recruiter" }
  else st

/-- `save_pdf_report`: the sequence of paragraph texts placed in the PDF
story (title, date line, then the analysis with asterisks removed split
on blank lines); spacers and styles are layout-only and omitted. -/
def save_pdf_story (date analysis : String) : List String :=
  ["Candidate Evaluation Report", "Date: " ++ date] ++
    splitOnBlank [] (removeAsterisks analysis).toList

end Try

/-! ## Helper lemmas -/

lemma stripBSGo_false_of_no_bs {l : List Char} (h : '\\' ∉ l) :
    stripBSGo false l = l := by
  induction l with
  | nil => rfl
  | cons c rest ih =>
    rw [List.mem_cons, not_or] at h
    have hc : ¬ c = '\\' := fun hh => h.1 hh.symm
    rw [stripBSGo.eq_def]
    simp [hc, ih h.2]

lemma stripBSGo_false_append (t : List Char) {l : List Char} (h : '\\' ∉ l) :
    stripBSGo false (l ++ t) = l ++ stripBSGo false t := by
  induction l with
  | nil => rfl
  | cons c rest ih =>
    rw [List.cons_append, stripBSGo.eq_def]
    rw [List.mem_cons, not_or] at h
    have hc : ¬ c = '\\' := fun hh => h.1 hh.symm
    simp [hc, ih h.2]

lemma stripBSGo_true_cons {e : Char} (rest : List Char) (he : ¬ e = '\\') :
    stripBSGo true (e :: rest) = e :: stripBSGo false rest := by
  rw [stripBSGo.eq_def]
  simp [he]

lemma pyStripList_of_ends {x y : Char} (l : List Char)
    (hx : pyWhitespace x = false) (hy : pyWhitespace y = false) :
    pyStripList (x :: (l ++ [y])) = x :: (l ++ [y]) := by
  unfold pyStripList
  have h1 : List.rdropWhile pyWhitespace ((x :: l) ++ [y]) = (x :: l) ++ [y] :=
    List.rdropWhile_concat_neg pyWhitespace (x :: l) y (by simp [hy])
  rw [show x :: (l ++ [y]) = (x :: l) ++ [y] from rfl, h1]
  simp [List.dropWhile_cons, hx]

lemma pyStrip_append_newline (x : String) : pyStrip (x ++ "\n") = pyStrip x := by
  unfold pyStrip pyStripList
  have h1 : (x ++ "\n").toList = x.toList ++ ['\n'] := rfl
  rw [h1, List.rdropWhile_concat_pos pyWhitespace x.toList '\n' (by decide)]

lemma isDigit_ofNat_mod (k : Nat) : (Char.ofNat (48 + k % 10)).isDigit = true := by
  have h : k % 10 < 10 := Nat.mod_lt _ (by norm_num)
  generalize hk : k % 10 = r at h ⊢
  interval_cases r <;> decide

lemma formatTime_wellFormed (h m s : Nat) :
    isWellFormedTimestamp (formatTime h m s) = true := by
  have htl : (formatTime h m s).toList =
      [Char.ofNat (48 + h / 10 % 10), Char.ofNat (48 + h % 10), ':',
       Char.ofNat (48 + m / 10 % 10), Char.ofNat (48 + m % 10), ':',
       Char.ofNat (48 + s / 10 % 10), Char.ofNat (48 + s % 10)] := rfl
  unfold isWellFormedTimestamp
  rw [htl]
  simp [isDigit_ofNat_mod]

lemma dotProduct_comm (v w : List ℚ) : dotProduct v w = dotProduct w v := by
  unfold dotProduct
  rw [List.zipWith_comm_of_comm (fun a b => a * b) mul_comm]

lemma generate_none_of_llm_failure (st : TryState) :
    Try.generate_dynamic_interview_suggestion (fun _ => none) st = none := by
  unfold Try.generate_dynamic_interview_suggestion
  split
  · rfl
  · rfl

lemma lastN_idem (l : List Message) : lastN 3 (lastN 3 l) = lastN 3 l := by
  unfold lastN
  rw [List.drop_drop]
  have h1 := List.length_drop (l.length - 3) l
  congr 1
  omega

lemma length_lastN (l : List Message) :
    (lastN 3 l).length = l.length - (l.length - 3) := by
  unfold lastN
  exact List.length_drop _ _

/-- Proof-internal accumulator shape of `pagesText`: every contributing
page followed by a newline, concatenated. -/
def concatNL : List String → String
  | [] => ""
  | p :: rest => p ++ "\n" ++ concatNL rest

lemma pagesText_eq_concatNL (pages : PdfPages) :
    pagesText pages = concatNL (extractablePages pages) := by
  induction pages with
  | nil => rfl
  | cons p rest ih =>
    cases p with
    | none => simpa [pagesText, extractablePages] using ih
    | some t =>
      by_cases ht : t = ""
      · simpa [pagesText, extractablePages, ht] using ih
      · simp [pagesText, extractablePages, ht, concatNL, ih]

lemma concatNL_eq_joinPages (l : List String) (h : l ≠ []) :
    concatNL l = joinPages l ++ "\n" := by
  induction l with
  | nil => exact absurd rfl h
  | cons p rest ih =>
    cases rest with
    | nil => simp [concatNL, joinPages, String.append_empty]
    | cons q rest2 =>
      rw [show concatNL (p :: q :: rest2) = p ++ "\n" ++ concatNL (q :: rest2)
            from rfl,
          ih (by simp),
          show joinPages (p :: q :: rest2) = p ++ "\n" ++ joinPages (q :: rest2)
            from rfl]
      simp [String.append_assoc]

lemma pyStrip_concatNL (l : List String) :
    pyStrip (concatNL l) = pyStrip (joinPages l) := by
  cases l with
  | nil => rfl
  | cons p rest =>
    rw [concatNL_eq_joinPages _ (by simp), pyStrip_append_newline]

/-! ## Claim theorems -/

/-- C1: In both variants, whenever the job description is empty, the
resume set is empty (the resume string, in the single-resume variant), or
fewer than 3 messages are stored, `analyze_conversation` issues no remote
prompt and returns the session state unchanged. -/
theorem analysis_rejected_without_preconditions :
    (∀ st : MainState,
       st.job_description = "" ∨ st.candidate_resume = "" ∨
         st.conversation_messages.length < 3 →
       Main.analyze_conversation st = (st, [])) ∧
    (∀ st : TryState,
       st.job_description = "" ∨ st.candidate_resumes = [] ∨
         st.conversation_messages.length < 3 →
       Try.analyze_conversation st = (st, [])) := by
  constructor
  · intro st h
    unfold Main.analyze_conversation
    rcases h with h | h | h
    · rw [if_pos (Or.inl h)]
    · rw [if_pos (Or.inr h)]
    · by_cases hd : st.job_description = "" ∨ st.candidate_resume = ""
      · rw [if_pos hd]
      · rw [if_neg hd, if_pos h]
  · intro st h
    unfold Try.analyze_conversation
    rcases h with h | h | h
    · rw [if_pos (Or.inl h)]
    · rw [if_pos (Or.inr h)]
    · by_cases hd : st.job_description = "" ∨ st.candidate_resumes = []
      · rw [if_pos hd]
      · rw [if_neg hd, if_pos h]

/-- C1 witness: a session with no documents is rejected, and a session
with both documents but only two messages is rejected, each with the
state intact and no prompt issued. -/
theorem analysis_rejected_without_preconditions_witness :
    Main.analyze_conversation ⟨[], "", "", "Recruiter"⟩ =
      (⟨[], "", "", "Recruiter"⟩, []) ∧
    Try.analyze_conversation
        ⟨[⟨"Recruiter", "Hi", "01:02:03"⟩, ⟨"Candidate", "Hello", "01:02:04"⟩],
         "jd text", ["resume text"], [], "Recruiter"⟩ =
      (⟨[⟨"Recruiter", "Hi", "01:02:03"⟩, ⟨"Candidate", "Hello", "01:02:04"⟩],
        "jd text", ["resume text"], [], "Recruiter"⟩, []) :=
  ⟨analysis_rejected_without_preconditions.1 _ (Or.inl rfl),
   analysis_rejected_without_preconditions.2 _ (Or.inr (Or.inr (by decide)))⟩

/-- C2 counterexample: the cleanup step does not remove literal asterisk
emphasis delimiters — `\*bold\*` cleans to `*bold*`, which still contains
asterisks, and plain `**bold**` passes through entirely unchanged. -/
theorem cleanup_keeps_asterisks_counterexample :
    cleanResponse "\\*bold\\*" = "*bold*" ∧
    '*' ∈ (cleanResponse "\\*bold\\*").toList ∧
    cleanResponse "**bold**" = "**bold**" := by
  decide

/-- C2 (amended): the cleanup replaces each backslash-escape (backslash,
optional captured character, trailing backslash run) by the captured
character and trims surrounding whitespace; wrapping a backslash-free
word in `\*...\*` therefore yields the word wrapped in plain asterisks —
no backslash artifacts remain and the enclosed text is verbatim, but the
asterisks themselves are kept. -/
theorem cleanup_unescapes_markers (w : String) (hw : '\\' ∉ w.toList) :
    cleanResponse ("\\*" ++ w ++ "\\*") = "*" ++ w ++ "*" := by
  obtain ⟨d⟩ := w
  cases d with
  | nil => decide
  | cons x l =>
    have hw' : '\\' ∉ x :: l := hw
    rw [List.mem_cons, not_or] at hw'
    have hx : ¬ x = '\\' := fun hh => hw'.1 hh.symm
    have hl : '\\' ∉ l := hw'.2
    have hbs :
        stripBackslashes (("\\*" ++ String.mk (x :: l) ++ "\\*").toList) =
          '*' :: ((x :: l) ++ ['*']) := by
      show '*' :: stripBSGo true ((x :: l) ++ ['\\', '*']) =
        '*' :: ((x :: l) ++ ['*'])
      rw [List.cons_append, stripBSGo_true_cons _ hx,
          stripBSGo_false_append _ hl]
      rfl
    unfold cleanResponse
    rw [hbs]
    unfold pyStrip
    rw [show (String.mk ('*' :: ((x :: l) ++ ['*']))).toList =
          '*' :: ((x :: l) ++ ['*']) from rfl,
        @pyStripList_of_ends '*' '*' (x :: l) rfl rfl]
    rfl

/-- C2 witness: the amended statement at the spec's own example. -/
theorem cleanup_unescapes_markers_witness :
    cleanResponse ("\\*" ++ "bold" ++ "\\*") = "*" ++ "bold" ++ "*" ∧
    cleanResponse "\\*bold\\*" = "*bold*" :=
  ⟨cleanup_unescapes_markers "bold" (by decide), by decide⟩

/-- Embedding backend used for C3: two antipodal unit vectors, so the
cosine similarity of distinct texts is exactly -1. -/
def cexEmbed : String → List ℚ := fun s => if s = "jd" then [1] else [-1]

/-- The backend's norm oracle on those vectors (both have Euclidean
norm 1). -/
def cexNrm : List ℚ → ℚ := fun _ => 1

/-- C3 counterexample: with a backend whose cosine similarity is -1
(within the hypothesised [-1, 1] range), `calculate_match_score` returns
-10, outside [0, 10]: the code scales by 10 without clamping. -/
theorem match_score_negative_counterexample :
    (-1 ≤ cosSim cexNrm (cexEmbed "jd") (cexEmbed "resume") ∧
      cosSim cexNrm (cexEmbed "jd") (cexEmbed "resume") ≤ 1) ∧
    calculate_match_score cexNrm cexEmbed "jd" "resume" = -10 ∧
    ¬(0 ≤ calculate_match_score cexNrm cexEmbed "jd" "resume") := by
  refine ⟨⟨?_, ?_⟩, ?_, ?_⟩ <;>
    simp [calculate_match_score, cosSim, dotProduct, cexNrm, cexEmbed]

/-- C3 (amended): under the hypothesis that the backend's cosine
similarity lies in [-1, 1], the match score lies in [-10, 10] (it lies in
[0, 10] only when the similarity is non-negative). -/
theorem match_score_bounded (nrm : List ℚ → ℚ) (embed : String → List ℚ)
    (jd resume : String)
    (h1 : -1 ≤ cosSim nrm (embed jd) (embed resume))
    (h2 : cosSim nrm (embed jd) (embed resume) ≤ 1) :
    -10 ≤ calculate_match_score nrm embed jd resume ∧
      calculate_match_score nrm embed jd resume ≤ 10 := by
  unfold calculate_match_score
  constructor <;> nlinarith [h1, h2]

/-- C3 witness: the amended bounds at a concrete backend where both
texts embed identically (cosine similarity 1, score 10). -/
theorem match_score_bounded_witness :
    -10 ≤ calculate_match_score cexNrm cexEmbed "same" "same" ∧
      calculate_match_score cexNrm cexEmbed "same" "same" ≤ 10 :=
  match_score_bounded cexNrm cexEmbed "same" "same"
    (by simp [cosSim, dotProduct, cexNrm, cexEmbed])
    (by simp [cosSim, dotProduct, cexNrm, cexEmbed])

/-- C4 counterexample: `extract_text_from_pdf` ends in Python `strip()`,
which also removes leading whitespace — a page starting with a space is
not returned "concatenated ... with (only) trailing whitespace trimmed"
as the claim states. -/
theorem loader_strips_leading_counterexample :
    extract_text_from_pdf [some " a"] = "a" ∧
    loaderSpecResult [some " a"] = " a" ∧
    extract_text_from_pdf [some " a"] ≠ loaderSpecResult [some " a"] := by
  decide

/-- C4 (amended): the PDF loader returns the extractable pages joined in
page order by single newlines with both leading and trailing whitespace
of the final result trimmed (pages with no text are skipped); a non-PDF
path is returned as exactly the file's decoded contents. -/
theorem loader_behaviour (pages : PdfPages) (path contents : String)
    (hp : hasPdfSuffix path = false) :
    extract_text_from_pdf pages =
      pyStrip (joinPages (extractablePages pages)) ∧
    load_document path pages contents = contents := by
  constructor
  · unfold extract_text_from_pdf
    rw [pagesText_eq_concatNL, pyStrip_concatNL]
  · simp [load_document, hp]

/-- C4 witness: the amended statement at a four-page PDF (one page with
no text layer, one with empty text) and at a plain-text path. -/
theorem loader_behaviour_witness :
    extract_text_from_pdf [some "a", none, some "", some "b"] =
      pyStrip (joinPages (extractablePages [some "a", none, some "", some "b"])) ∧
    load_document "resume.txt" [some "a", none, some "", some "b"]
        "hello world" = "hello world" :=
  loader_behaviour [some "a", none, some "", some "b"] "resume.txt"
    "hello world" (by decide)

/-- Session states used by the concrete instantiations below. -/
def st0Main : MainState := ⟨[], "jd text", "resume text", "Recruiter"⟩

/-- A fresh multi-resume session with both documents loaded. -/
def st0Try : TryState := ⟨[], "jd text", ["resume text"], [], "Recruiter"⟩

/-- Frame facts about `try.py`'s `send_message` for a non-empty message:
the new record is appended at the end and the documents are untouched. -/
lemma try_send_message_conv (llm : String → Option String) (input : String)
    (h m s : Nat) (tst : TryState) (hne : ¬ pyStrip input = "") :
    (Try.send_message llm input h m s tst).conversation_messages =
      tst.conversation_messages ++
        [⟨tst.current_sender, pyStrip input, formatTime h m s⟩] := by
  simp only [Try.send_message, hne, if_false, ite_false]
  split
  · split
    · split <;> rfl
    · rfl
  · rfl

/-- Frame facts about `try.py`'s `send_message` when every remote call
fails: the suggestion list, job description and resume set are unchanged. -/
lemma try_send_message_failing_frame (input : String) (h m s : Nat)
    (tst : TryState) :
    (Try.send_message (fun _ => none) input h m s tst).interview_suggestions =
        tst.interview_suggestions ∧
      (Try.send_message (fun _ => none) input h m s tst).job_description =
        tst.job_description ∧
      (Try.send_message (fun _ => none) input h m s tst).candidate_resumes =
        tst.candidate_resumes := by
  by_cases hne : pyStrip input = ""
  · simp [Try.send_message, hne]
  · simp only [Try.send_message, hne, if_false, ite_false]
    rw [generate_none_of_llm_failure]
    split <;> exact ⟨rfl, rfl, rfl⟩

/-- C5 counterexample: the appended record does not carry the raw input
text — `send_message` strips surrounding whitespace first, so sending
`" Hello "` stores `"Hello"`. -/
theorem send_message_strips_counterexample :
    (Main.send_message " Hello " 1 2 3 st0Main).conversation_messages =
      [⟨"Recruiter", "Hello", "01:02:03"⟩] ∧
    (Main.send_message " Hello " 1 2 3 st0Main).conversation_messages ≠
      [⟨"Recruiter", " Hello ", "01:02:03"⟩] := by
  decide

/-- C5 (amended): a message whose stripped text is empty is a no-op (no
record, no error); otherwise exactly one record is appended at the end
whose sender is the current sender and whose text is the input with
leading/trailing whitespace removed (equal to the input whenever the
input carries no surrounding whitespace), with a well-formed `HH:MM:SS`
timestamp; earlier records are untouched.  Both variants agree. -/
theorem send_message_appends_trimmed (input : String) (h m s : Nat)
    (st : MainState) (llm : String → Option String) (tst : TryState) :
    (pyStrip input = "" →
       Main.send_message input h m s st = st ∧
       Try.send_message llm input h m s tst = tst) ∧
    (pyStrip input ≠ "" →
       (Main.send_message input h m s st).conversation_messages =
         st.conversation_messages ++
           [⟨st.current_sender, pyStrip input, formatTime h m s⟩] ∧
       (Try.send_message llm input h m s tst).conversation_messages =
         tst.conversation_messages ++
           [⟨tst.current_sender, pyStrip input, formatTime h m s⟩]) ∧
    isWellFormedTimestamp (formatTime h m s) = true := by
  refine ⟨fun he => ⟨?_, ?_⟩, fun hne => ⟨?_, ?_⟩, formatTime_wellFormed h m s⟩
  · simp [Main.send_message, he]
  · simp [Try.send_message, he]
  · simp [Main.send_message, hne]
  · exact try_send_message_conv llm input h m s tst hne

/-- C5 witness: the amended statement at concrete inputs — `" Hi "` is
stored as `"Hi"` with timestamp `"09:05:07"`, and a whitespace-only
message leaves the state untouched. -/
theorem send_message_appends_trimmed_witness :
    (Main.send_message " Hi " 9 5 7 st0Main).conversation_messages =
      [⟨"Recruiter", "Hi", "09:05:07"⟩] ∧
    Main.send_message "   " 9 5 7 st0Main = st0Main ∧
    isWellFormedTimestamp "09:05:07" = true :=
  ⟨(((send_message_appends_trimmed " Hi " 9 5 7 st0Main (fun _ => none)
        st0Try).2.1 (by decide)).1).trans (by decide),
   ((send_message_appends_trimmed "   " 9 5 7 st0Main (fun _ => none)
        st0Try).1 (by decide)).1,
   by decide⟩

/-- C6: the dynamic-suggestion operation (1) is a no-op when the
transcript is shorter than 2 messages or either document is missing,
(2) builds its prompt from at most the 3 most recent messages (replacing
the transcript by its last three messages changes nothing), (3) yields no
suggestion when the remote call fails, and (4) under a failing remote
call, sending a message leaves the suggestion list, job description and
resume set untouched. -/
theorem dynamic_suggestion_guards :
    (∀ (llm : String → Option String) (st : TryState),
       st.conversation_messages.length < 2 ∨ st.job_description = "" ∨
         st.candidate_resumes = [] →
       Try.generate_dynamic_interview_suggestion llm st = none) ∧
    (∀ (llm : String → Option String) (st : TryState),
       Try.generate_dynamic_interview_suggestion llm
           { st with conversation_messages := lastN 3 st.conversation_messages } =
         Try.generate_dynamic_interview_suggestion llm st) ∧
    (∀ st : TryState,
       Try.generate_dynamic_interview_suggestion (fun _ => none) st = none) ∧
    (∀ (input : String) (h m s : Nat) (st : TryState),
       (Try.send_message (fun _ => none) input h m s st).interview_suggestions =
           st.interview_suggestions ∧
         (Try.send_message (fun _ => none) input h m s st).job_description =
           st.job_description ∧
         (Try.send_message (fun _ => none) input h m s st).candidate_resumes =
           st.candidate_resumes) := by
  refine ⟨?_, ?_, generate_none_of_llm_failure, try_send_message_failing_frame⟩
  · intro llm st h
    unfold Try.generate_dynamic_interview_suggestion
    rw [if_pos h]
  · intro llm st
    obtain ⟨conv, jd, res, sugg, snd⟩ := st
    unfold Try.generate_dynamic_interview_suggestion
    dsimp only
    by_cases hl : conv.length < 2
    · have h0 : conv.length - 3 = 0 := by omega
      rw [show lastN 3 conv = conv from by unfold lastN; rw [h0, List.drop_zero]]
      rw [if_pos (Or.inl hl), if_pos (Or.inl hl)]
    · have hlen : ¬ (lastN 3 conv).length < 2 := by
        rw [length_lastN]; omega
      by_cases hjr : jd = "" ∨ res = []
      · rw [if_pos (Or.inr hjr), if_pos (Or.inr hjr)]
      · rw [if_neg (fun hcon => hcon.elim hlen hjr),
            if_neg (fun hcon => hcon.elim hl hjr), lastN_idem]

/-- C6 witness: the guards at concrete sessions — an empty transcript
yields no suggestion even with a live model, a failing model yields no
suggestion, and sending into a failing model leaves the suggestion list
empty. -/
theorem dynamic_suggestion_guards_witness :
    Try.generate_dynamic_interview_suggestion (fun _ => some "Q?") st0Try =
      none ∧
    Try.generate_dynamic_interview_suggestion (fun _ => none) st0Try = none ∧
    (Try.send_message (fun _ => none) "Tell me more" 10 0 0
        st0Try).interview_suggestions = [] :=
  ⟨dynamic_suggestion_guards.1 (fun _ => some "Q?") st0Try (Or.inl (by decide)),
   dynamic_suggestion_guards.2.2.1 st0Try,
   (dynamic_suggestion_guards.2.2.2 "Tell me more" 10 0 0 st0Try).1⟩

/-- C7: the plain-text report is the metadata header (generation date,
`Messages analyzed: n` with `n` the stored message count, and the match
score) followed by the analysis text verbatim — no paragraph splitting;
only the PDF writer splits the analysis on blank-line boundaries. -/
theorem report_writer_layout (st : MainState) (date score analysis : String)
    (h5 : st.conversation_messages.length = 5) :
    Main.save_analysis st date score analysis =
      Main.report_metadata date 5 score ++ analysis ∧
    Main.report_metadata "2026-02-03 10:00" 5 "7.5" =
      "\nCANDIDATE EVALUATION REPORT\nDate: 2026-02-03 10:00\nMessages analyzed: 5\nInitial resume match score: 7.5/10\n\n--- ANALYSIS RESULTS ---\n\n" ∧
    Try.save_pdf_story date "A\n\nB" =
      ["Candidate Evaluation Report", "Date: " ++ date, "A", "B"] := by
  refine ⟨?_, by decide, rfl⟩
  unfold Main.save_analysis
  rw [h5]

/-- A five-message session for the C7 witness. -/
def st5Main : MainState :=
  ⟨[⟨"Recruiter", "a", "01:00:00"⟩, ⟨"Candidate", "b", "01:00:01"⟩,
    ⟨"Recruiter", "c", "01:00:02"⟩, ⟨"Candidate", "d", "01:00:03"⟩,
    ⟨"Recruiter", "e", "01:00:04"⟩], "jd text", "resume text", "Candidate"⟩

/-- C7 witness: the layout at a concrete five-message session. -/
theorem report_writer_layout_witness :
    Main.save_analysis st5Main "2026-02-03 10:00" "7.5" "A\n\nB" =
      Main.report_metadata "2026-02-03 10:00" 5 "7.5" ++ "A\n\nB" ∧
    Try.save_pdf_story "2026-02-03 10:00" "A\n\nB" =
      ["Candidate Evaluation Report", "Date: 2026-02-03 10:00", "A", "B"] :=
  ⟨(report_writer_layout st5Main "2026-02-03 10:00" "7.5" "A\n\nB"
      (by decide)).1,
   (report_writer_layout st5Main "2026-02-03 10:00" "7.5" "A\n\nB"
      (by decide)).2.2⟩

/-- C8: the match scorer is symmetric in its two texts: the dot product
is commutative and the two norms swap, so the cosine — and hence the
score — is unchanged when the job description and resume are exchanged.
Determinism of the backend is captured by `embed` being a function. -/
theorem match_score_symmetric (nrm : List ℚ → ℚ) (embed : String → List ℚ)
    (a b : String) :
    calculate_match_score nrm embed a b = calculate_match_score nrm embed b a := by
  unfold calculate_match_score cosSim
  rw [dotProduct_comm, mul_comm (nrm (embed a))]

/-- C9: `clear_chat` (confirmed) empties the conversation log — and in
the multi-resume variant also the resume set and the suggestion list —
while the loaded job description is untouched in both variants. -/
theorem clear_chat_frame :
    (∀ st : MainState,
       (Main.clear_chat true st).conversation_messages = [] ∧
       (Main.clear_chat true st).job_description = st.job_description ∧
       (Main.clear_chat true st).candidate_resume = st.candidate_resume) ∧
    (∀ st : TryState,
       (Try.clear_chat true st).conversation_messages = [] ∧
       (Try.clear_chat true st).candidate_resumes = [] ∧
       (Try.clear_chat true st).interview_suggestions = [] ∧
       (Try.clear_chat true st).job_description = st.job_description) := by
  constructor <;> intro st <;> simp [Main.clear_chat, Try.clear_chat]

/-- C10: on any response text containing no backslash, the cleanup
substitution is the identity, so the whole cleanup step only trims
surrounding whitespace; in particular plain markdown emphasis markers
such as `**bold**` pass through untouched. -/
theorem cleanup_identity_without_backslash (s : String)
    (h : '\\' ∉ s.toList) :
    cleanResponse s = pyStrip s := by
  unfold cleanResponse stripBackslashes
  rw [stripBSGo_false_of_no_bs h]
  rfl

/-- C10 witness: `**bold**` is returned exactly as written. -/
theorem cleanup_identity_without_backslash_witness :
    cleanResponse "**bold**" = pyStrip "**bold**" ∧
    pyStrip "**bold**" = "**bold**" :=
  ⟨cleanup_identity_without_backslash "**bold**" (by decide), by decide⟩

end SmartRecruiter
